import Mathlib

/-!
Verification development for the Diatomic streaming XML feed parser.

The TypeScript sources are shallowly embedded:
* `Diatomic.Util` embeds `src/src/Utilities.ts` (the `AbstractGroupTagParserState`
  / `SimpleGroupParserState` / `AbstractTextTagParserState` framework).  Abstract
  methods of the TypeScript classes become explicit function parameters of the
  handler definitions; the mutable data fields become record fields threaded
  explicitly.  A thrown exception becomes `Except.error`.
* `Diatomic.XDP` embeds `src/src/XMLDataParser.ts` (and the identical module in
  `src/unnamed/part_008`): `TextParserState`, `ReturnTextParserState`, and the
  `XMLParserController` event wiring.
* `Diatomic.RSS` embeds the RSS grammar of `src/unnamed/part_011`
  (`RootElementState`, `ChannelElementState`, the `SimpleTextParserState`
  instances built by `transitionExpectedTag`, and JavaScript `parseInt`).
-/

set_option autoImplicit false

namespace Diatomic

/-- A saxes tag event (`SaxesTag` / `SaxesTagNS`), restricted to the fields the
embedded code reads: the tag name and its attribute map.  Attribute maps are
modelled as association lists; JavaScript object keys are unique, so no
deduplication is needed. -/
structure XTag where
  name : String
  attributes : List (String × String)
deriving Repr, DecidableEq

/-- The exception types of `Utilities.ts` / `XMLDataParser.ts`, by payload.
`unexpectedTag` carries the offending tag name and the optional `whileParsing`
tag name; `invalidCloseTag` the close tag name; `missingTag` its message. -/
inductive XMLError where
  | unexpectedTag (tagName : String) (whileParsing : Option String)
  | invalidCloseTag (tagName : String)
  | missingTag (msg : String)
  | genericError (msg : String)
deriving Repr, DecidableEq

namespace Util

/-- The enum `UnexpectedTagBehavior` (Ignore, Error, Parse) from `Utilities.ts`. -/
inductive UnexpectedTagBehavior where
  | Ignore
  | Error
  | Parse
deriving Repr, DecidableEq

/-- The data fields of `AbstractGroupTagParserState`: the owning tag name, the
`beginParse` flag, and the configured unexpected-tag behavior.  The abstract
methods (`isAllowedTag`, `transitionExpectedTag`, `transitionUnexpectedTag`,
`transitionFinishedState`) are passed to the handler functions below as
explicit parameters, since subclasses supply them. -/
structure GroupCore where
  tagName : String
  beginParse : Bool
  unexpectedTagBehavior : UnexpectedTagBehavior
deriving Repr, DecidableEq

/-- Result of a group-state handler.  `noTransition` is the handler returning
`undefined` (no `StateTransition`); `toSelf g` is `new StateTransition(this)`
where `g` is the (possibly mutated) receiver; `toOther s e` is a transition to
another state `s` with optional emit `e`. -/
inductive GroupStep (σ ε : Type) where
  | noTransition
  | toSelf (g : GroupCore)
  | toOther (s : σ) (e : Option ε)
deriving Repr, DecidableEq

variable {σ ε : Type}

/-- Source `AbstractGroupTagParserState.handleUnexpectedTag` (private):
switch on `unexpectedTagBehavior` — `Error` throws `UnexpectedXMLTagError(tag)`,
`Ignore` returns `new StateTransition(this)`, `Parse` returns
`this.transitionUnexpectedTag(tag)` (abstract, here the parameter `tU`). -/
def handleUnexpectedTag (g : GroupCore) (tU : XTag → σ × Option ε) (tag : XTag) :
    Except XMLError (GroupStep σ ε) :=
  match g.unexpectedTagBehavior with
  | UnexpectedTagBehavior.Error => Except.error (XMLError.unexpectedTag tag.name none)
  | UnexpectedTagBehavior.Ignore => Except.ok (GroupStep.toSelf g)
  | UnexpectedTagBehavior.Parse => Except.ok (GroupStep.toOther (tU tag).1 (tU tag).2)

/-- Source `AbstractGroupTagParserState.handleOpenTagBeforeBegin`: if the tag is the
owning tag, set `beginParse` and return `new StateTransition(this)`; otherwise
`handleUnexpectedTag`. -/
def handleOpenTagBeforeBegin (g : GroupCore) (tU : XTag → σ × Option ε) (tag : XTag) :
    Except XMLError (GroupStep σ ε) :=
  if tag.name = g.tagName then
    Except.ok (GroupStep.toSelf { g with beginParse := true })
  else
    handleUnexpectedTag g tU tag

/-- Source `AbstractGroupTagParserState.handleOpenTagAfterBegin`: if `isAllowedTag(tag)`
then `transitionExpectedTag(tag)` (parameter `tExp`), else `handleUnexpectedTag`. -/
def handleOpenTagAfterBegin (g : GroupCore) (isAllowedTag : XTag → Bool)
    (tExp : XTag → σ × Option ε) (tU : XTag → σ × Option ε) (tag : XTag) :
    Except XMLError (GroupStep σ ε) :=
  if isAllowedTag tag then
    Except.ok (GroupStep.toOther (tExp tag).1 (tExp tag).2)
  else
    handleUnexpectedTag g tU tag

/-- Source `AbstractGroupTagParserState.opentagHandler`, exactly as written in the
source: `if (!this.beginParse) { return this.handleOpenTagBeforeBegin(tag) }` —
there is no `else` branch, so once `beginParse` is set the method falls through
and returns `undefined` (`handleOpenTagAfterBegin` is never invoked). -/
def opentagHandler (g : GroupCore) (tU : XTag → σ × Option ε) (tag : XTag) :
    Except XMLError (GroupStep σ ε) :=
  if !g.beginParse then
    handleOpenTagBeforeBegin g tU tag
  else
    Except.ok GroupStep.noTransition

/-- Source `AbstractGroupTagParserState.closetagHandler`: a close tag whose name is not
the owning tag name throws `InvalidXMLCloseTagError`; otherwise return
`this.transitionFinishedState()` (abstract, parameter `fin`). -/
def closetagHandler (g : GroupCore) (fin : Unit → σ × Option ε) (tag : XTag) :
    Except XMLError (GroupStep σ ε) :=
  if tag.name ≠ g.tagName then
    Except.error (XMLError.invalidCloseTag tag.name)
  else
    Except.ok (GroupStep.toOther (fin ()).1 (fin ()).2)

/-- The `handleOpenTagAfterBegin` of `SimpleGroupParserState`, obtained by composing
the abstract method with its overrides: `isAllowedTag` is
`tag.name in this.stateTransitionTable` and `transitionExpectedTag` is
`this.stateTransitionTable[tag.name](this, tag)`.  The table is an association
list from tag names to `TransitionFunction`s taking the current state and tag
(membership in the table coincides with a successful lookup). -/
def simpleHandleOpenTagAfterBegin (g : GroupCore)
    (table : List (String × (GroupCore → XTag → σ × Option ε)))
    (tU : XTag → σ × Option ε) (tag : XTag) : Except XMLError (GroupStep σ ε) :=
  match table.lookup tag.name with
  | some f => Except.ok (GroupStep.toOther (f g tag).1 (f g tag).2)
  | none => handleUnexpectedTag g tU tag

/-- The data fields of `AbstractTextTagParserState`: the owning tag name, the
return state, and the accumulated text. -/
structure TextState (σ : Type) where
  tagName : String
  returnState : σ
  text : String

/-- Source `AbstractTextTagParserState.opentagHandler` always throws
`UnexpectedXMLTagError(tag, this.tagName)` (return type `never`); the embedding
returns the thrown error. -/
def TextState.opentagHandler (st : TextState σ) (tag : XTag) : XMLError :=
  XMLError.unexpectedTag tag.name (some st.tagName)

/-- Source `AbstractTextTagParserState.textHandler`: `this.text += text`, returning
`undefined` (no transition); the embedding returns the updated state. -/
def TextState.textHandler (st : TextState σ) (t : String) : TextState σ :=
  { st with text := st.text ++ t }

/-- Source `AbstractTextTagParserState.closetagHandler`: returns
`new StateTransition(this.returnState, this.emitObject())`.  For
`SimpleTextParserState` the abstract `emitObject()` is
`this.emitObjectConstructor(this.text)` (parameter `ctor`). -/
def TextState.closetagHandler (st : TextState σ) (ctor : String → ε) (_tag : XTag) :
    σ × Option ε :=
  (st.returnState, some (ctor st.text))

end Util

namespace XDP

variable {σ ε : Type}

/-- The result of a `BaseParserState` event handler:
`StateTransition<EmitObject> | void`, with thrown exceptions as `Except.error`.
`none` is `undefined` (no transition); `some (s, e)` is
`new StateTransition(s, e)` where the optional `emitObject` is `e`. -/
abbrev HRes (σ ε : Type) := Except XMLError (Option (σ × Option ε))

/-- Source `TextParserState` of `XMLDataParser.ts`: the accumulated `text`, the
attribute map built by the `BaseParserState` constructor from the open tag, the
`emitObjectTextConstructor`, and the `parent` back-reference.  The parent is
`Option`al because the base class stores it as optional (`part_008`) and
`onCloseTag` guards on `if (this.parent)`. -/
structure TextParserState (σ ε : Type) where
  text : String
  attributes : List (String × String)
  emitObjectTextConstructor : String → List (String × String) → ε
  parent : Option σ

/-- The `TextParserState` constructor: `super(openTag, parent)` copies the open
attributes of the open tag into the attribute map and the state starts with empty text. -/
def TextParserState.fromOpenTag (openTag : XTag)
    (ctor : String → List (String × String) → ε) (parent : σ) : TextParserState σ ε :=
  { text := "", attributes := openTag.attributes,
    emitObjectTextConstructor := ctor, parent := some parent }

/-- Source `TextParserState` does not override `onOpenTag`; it inherits
`BaseParserState.onOpenTag`, whose body is empty — no transition, no error. -/
def TextParserState.onOpenTag (_st : TextParserState σ ε) (_tag : XTag) : HRes σ ε :=
  Except.ok none

/-- Source `TextParserState.onText`: `this.text = this.text.concat(text)`, returning
`undefined`; the embedding returns the updated state. -/
def TextParserState.onText (st : TextParserState σ ε) (t : String) : TextParserState σ ε :=
  { st with text := st.text ++ t }

/-- Source `TextParserState.onCloseTag`: `if (this.parent) return new
StateTransition(this.parent, this.emitObjectTextConstructor(this.text,
this.attributes))`. -/
def TextParserState.onCloseTag (st : TextParserState σ ε) (_tag : XTag) : HRes σ ε :=
  match st.parent with
  | some p => Except.ok (some (p, some (st.emitObjectTextConstructor st.text st.attributes)))
  | none => Except.ok none

/-- Source `ReturnTextParserState`: accumulated `text`, attribute map, and `parent`.
The `Collector` it holds is an external object mutated through `onFeed`; the
embedding records the sequence of `onFeed` calls in the handler result
instead of storing the collector. -/
structure ReturnTextParserState (σ : Type) where
  text : String
  attributes : List (String × String)
  parent : Option σ

/-- Source `ReturnTextParserState.onText`: `this.text = this.text.concat(text)`. -/
def ReturnTextParserState.onText (st : ReturnTextParserState σ) (t : String) :
    ReturnTextParserState σ :=
  { st with text := st.text ++ t }

/-- Source `ReturnTextParserState.onCloseTag`: `this.collector.onFeed(this.text)` and
nothing else — the method returns `undefined`.  The first component lists the
values fed to the collector (exactly one: the raw accumulated text), the second
is the returned transition (`none`). -/
def ReturnTextParserState.onCloseTag (st : ReturnTextParserState σ) (_tag : XTag) :
    List String × Option (σ × Option ε) :=
  ([st.text], none)

/-- The `XMLParserController` fields that drive dispatch: the `_preinitState`
flag and the current `state` (absent until the first recognized tag). -/
structure Controller (σ : Type) where
  preinit : Bool
  state : Option σ
deriving Repr, DecidableEq

/-- A fresh controller, as built by the `XMLParserController` constructor:
`_preinitState = true`, no current state; the constructor registers only the
saxes `error` handler and `saxPreInitOpenTagHandler` for `opentag`. -/
def mkController (σ : Type) : Controller σ :=
  { preinit := true, state := none }

/-- The event-handler surface of a parser state, as `XMLParserController` calls
it (`state.onOpenTag` / `state.onText` / `state.onCloseTag`). -/
structure StateHandlers (σ ε : Type) where
  onOpen : σ → XTag → HRes σ ε
  onText : σ → String → HRes σ ε
  onClose : σ → XTag → HRes σ ε

/-- The saxes events the controller can observe.  `endOfInput` is the saxes
`end` event fired when the tokenizer is closed/flushed; the controller never
registers a handler for it. -/
inductive SaxEvent where
  | opentag (tag : XTag)
  | text (s : String)
  | closetag (tag : XTag)
  | saxError (e : XMLError)
  | endOfInput

/-- Source `XMLParserController.handleStateTransition` applied to a handler result:
on a `StateTransition`, replace the current state and hand any `emitObject` to
the emit sink; on `undefined`, do nothing.  A thrown exception propagates out
of the handler uncaught (it is not routed to the error sink). -/
def applyTransition (c : Controller σ) (r : HRes σ ε) :
    Except XMLError (Controller σ × List ε × List XMLError) :=
  match r with
  | Except.error e => Except.error e
  | Except.ok none => Except.ok (c, [], [])
  | Except.ok (some (s, eo)) => Except.ok ({ c with state := some s }, eo.toList, [])

/-- One saxes event processed by `XMLParserController`, parameterized by the
abstract `isFirstTag` predicate and the injected `initialStateConstructor`
(called with the tag only — no parent).  Outputs the updated controller, the
objects handed to the emit sink, and the errors handed to the error sink.

Wiring, from the source: in pre-init only `error` and the pre-init `opentag`
handler are registered, so `text`/`closetag` events are dropped;
`saxPreInitOpenTagHandler` ignores tags failing `isFirstTag` and otherwise
clears `_preinitState`, constructs the initial state, and rewires
`opentag`/`text`/`closetag` to the full dispatch handlers, which forward to the
current state (guarded by `if (this.state)`).  No handler is ever registered
for the saxes `end` event, so end-of-input does nothing. -/
def Controller.step (m : StateHandlers σ ε) (isFirstTag : XTag → Bool)
    (initialStateConstructor : XTag → σ) (c : Controller σ) :
    SaxEvent → Except XMLError (Controller σ × List ε × List XMLError)
  | SaxEvent.saxError e => Except.ok (c, [], [e])
  | SaxEvent.endOfInput => Except.ok (c, [], [])
  | SaxEvent.opentag tag =>
      if c.preinit then
        if isFirstTag tag then
          Except.ok ({ preinit := false, state := some (initialStateConstructor tag) }, [], [])
        else
          Except.ok (c, [], [])
      else
        match c.state with
        | some s => applyTransition c (m.onOpen s tag)
        | none => Except.ok (c, [], [])
  | SaxEvent.text t =>
      if c.preinit then
        Except.ok (c, [], [])
      else
        match c.state with
        | some s => applyTransition c (m.onText s t)
        | none => Except.ok (c, [], [])
  | SaxEvent.closetag tag =>
      if c.preinit then
        Except.ok (c, [], [])
      else
        match c.state with
        | some s => applyTransition c (m.onClose s tag)
        | none => Except.ok (c, [], [])

/-- Source `SimpleXMLParserController.isFirstTag`: `tag.name === this.firstTag`. -/
def SimpleXMLParserController.isFirstTag (firstTag : String) (tag : XTag) : Bool :=
  tag.name == firstTag

end XDP

namespace RSS

/-- A JavaScript number as produced by `parseInt`: either an integer or `NaN`. -/
inductive JSNum where
  | int (n : Int)
  | nan
deriving Repr, DecidableEq

/-- An opaque model of `new Date(text)`: the grammar stores the constructed
date in the emitted object and no code in the repository inspects its
components, so the embedding keeps the argument string. -/
inductive JSDate where
  | fromString (s : String)
deriving Repr, DecidableEq

/-- Numeric value of a list of decimal digits, most significant first. -/
def digitsToNat (l : List Char) : Nat :=
  l.foldl (fun a c => a * 10 + (c.toNat - 48)) 0

/-- JavaScript `parseInt(s)` (radix argument omitted, decimal input): skip
leading whitespace, read an optional sign, then the longest prefix of decimal
digits; if there is no digit, the result is `NaN`.  (The `0x` hexadecimal
special case of `parseInt` cannot arise for the inputs the feed grammar
handles and is not modelled.) -/
def jsParseInt (s : String) : JSNum :=
  let cs := s.toList.dropWhile (fun c => c == ' ' || c == '\t' || c == '\n' || c == '\r')
  let signed : Int × List Char :=
    match cs with
    | '-' :: r => (-1, r)
    | '+' :: r => (1, r)
    | r => (1, r)
  let digits := signed.2.takeWhile Char.isDigit
  if digits.isEmpty then JSNum.nan
  else JSNum.int (signed.1 * (digitsToNat digits : Int))

/-- Source `leadsWith n h` is true when `n` occurs at the head of `h`. -/
def leadsWith : List Char → List Char → Bool
  | [], _ => true
  | _ :: _, [] => false
  | a :: as, b :: bs => a == b && leadsWith as bs

/-- Source `containsSub n h` is true when `n` occurs as a contiguous run inside `h`. -/
def containsSub (needle : List Char) : List Char → Bool
  | [] => needle.isEmpty
  | c :: rest => leadsWith needle (c :: rest) || containsSub needle rest

/-- The alternatives of the regular expression in `isChannelDataKey`. -/
def channelDataKeys : List String :=
  ["title", "link", "description", "language", "copyright", "managingEditor",
   "webMaster", "pubDate", "lastBuildDate", "category", "generator", "cloud", "ttl"]

/-- Source `isChannelDataKey`:
`/title|link|...|ttl/.test(testString)` — an unanchored regular-expression
test, so it holds whenever one of the alternatives occurs anywhere inside the
string. -/
def isChannelDataKey (s : String) : Bool :=
  channelDataKeys.any (fun k => containsSub k.toList s.toList)

/-- The value stored in the single-field channel object built by
`createChannelDataFeedObject`, one constructor per branch of
`ChannelElementState.transitionExpectedTag`. -/
inductive ChannelValue where
  | str (s : String)
  | date (d : JSDate)
  | num (n : JSNum)
deriving Repr, DecidableEq

/-- Source `createChannelDataFeedObject(key, value)` builds `{channel: {[key]: value}}`
— a channel object with the single field `key` holding `value`. -/
structure FeedObject where
  key : String
  value : ChannelValue
deriving Repr, DecidableEq

/-- Which `transitionExpectedTag` branch built a `emitObjectConstructor` of a `SimpleTextParserState`: plain text, `new Date(t)`, or `parseInt(t)`. -/
inductive VKind where
  | vstr
  | vdate
  | vnum
deriving Repr, DecidableEq

/-- The emit constructor of the `SimpleTextParserState` built for channel key
`key` with branch `kind`, applied to the accumulated text. -/
def mkValue : VKind → String → ChannelValue
  | VKind.vstr, t => ChannelValue.str t
  | VKind.vdate, t => ChannelValue.date (JSDate.fromString t)
  | VKind.vnum, t => ChannelValue.num (jsParseInt t)

/-- The parser states of the RSS grammar in `part_011`:
`RootElementState`, `ChannelElementState` (an `AbstractGroupTagParserState`
with owning tag `"channel"`, default `Ignore` behavior, and `beginParse` flag),
and the `SimpleTextParserState` instances that `transitionExpectedTag` builds
(owning tag name, emit branch, accumulated text, and the return state). -/
inductive RSSState where
  | root
  | channel (beginParse : Bool)
  | simpleText (tagName : String) (kind : VKind) (text : String) (returnState : RSSState)
deriving Repr, DecidableEq

/-- The `GroupCore` of `ChannelElementState`: `super("channel")` with the
default `UnexpectedTagBehavior.Ignore`. -/
def channelCore (b : Bool) : Util.GroupCore :=
  { tagName := "channel", beginParse := b,
    unexpectedTagBehavior := Util.UnexpectedTagBehavior.Ignore }

/-- Source `ChannelElementState.transitionExpectedTag`: `ttl` gets a
`SimpleTextParserState` whose constructor applies `parseInt`;
`lastBuildDate`/`pubDate` get `new Date`; every other tag name passes the text
through.  Each state is created as `new SimpleTextParserState(tag.name, this,
...)` — empty initial text, return state `this` (the channel state). -/
def transitionExpectedTag (b : Bool) (tag : XTag) : RSSState × Option FeedObject :=
  if tag.name == "ttl" then
    (RSSState.simpleText tag.name VKind.vnum "" (RSSState.channel b), none)
  else if tag.name == "lastBuildDate" || tag.name == "pubDate" then
    (RSSState.simpleText tag.name VKind.vdate "" (RSSState.channel b), none)
  else
    (RSSState.simpleText tag.name VKind.vstr "" (RSSState.channel b), none)

/-- Source `ChannelElementState` does not override the abstract
`transitionUnexpectedTag`; with the default `Ignore` behavior
`handleUnexpectedTag` never reaches the `Parse` arm, so this placeholder is
unreachable. -/
def channelUnexpected (b : Bool) (_tag : XTag) : RSSState × Option FeedObject :=
  (RSSState.channel b, none)

/-- Translate a `GroupStep` of the channel state back into the transformer
handler-result shape: `toSelf` is `new StateTransition(this)` with the mutated
`beginParse` flag. -/
def ofGroupStep : Except XMLError (Util.GroupStep RSSState FeedObject) →
    Except XMLError (Option (RSSState × Option FeedObject))
  | Except.error e => Except.error e
  | Except.ok Util.GroupStep.noTransition => Except.ok none
  | Except.ok (Util.GroupStep.toSelf g) => Except.ok (some (RSSState.channel g.beginParse, none))
  | Except.ok (Util.GroupStep.toOther s e) => Except.ok (some (s, e))

/-- The `opentagHandler` of each RSS grammar state, as the transformer invokes
it.  `RootElementState` throws `MissingXMLTagError` unless the tag is `rss`
and otherwise transitions into a fresh `ChannelElementState`;
`ChannelElementState` inherits `AbstractGroupTagParserState.opentagHandler`;
`SimpleTextParserState` inherits `AbstractTextTagParserState.opentagHandler`,
which always throws. -/
def RSSState.opentagHandler : RSSState → XTag →
    Except XMLError (Option (RSSState × Option FeedObject))
  | RSSState.root, tag =>
      if tag.name != "rss" then
        Except.error (XMLError.missingTag
          ("Feed does not begin with tag named rss, instead got " ++ tag.name))
      else
        Except.ok (some (RSSState.channel false, none))
  | RSSState.channel b, tag =>
      ofGroupStep (Util.opentagHandler (channelCore b) (channelUnexpected b) tag)
  | RSSState.simpleText tagName _ _ _, tag =>
      Except.error (XMLError.unexpectedTag tag.name (some tagName))

/-- The `textHandler` of each RSS grammar state.  Only
`SimpleTextParserState` declares one (`this.text += text`); the transformer
checks `if (this.state.textHandler)` and skips states without it, which the
embedding returns as `none`. -/
def RSSState.textHandler : RSSState → String → Option RSSState
  | RSSState.simpleText n k t r, s => some (RSSState.simpleText n k (t ++ s) r)
  | RSSState.root, _ => none
  | RSSState.channel _, _ => none

/-- The `closetagHandler` of each RSS grammar state.  `RootElementState`
declares none (the transformer skips it); `ChannelElementState` inherits
`AbstractGroupTagParserState.closetagHandler` with `transitionFinishedState`
returning `new StateTransition(new RootElementState())`;
`SimpleTextParserState` returns `new StateTransition(this.returnState,
this.emitObject())` where the emit constructor is
`t => createChannelDataFeedObject(tagName, ...)` per branch. -/
def RSSState.closetagHandler : RSSState → XTag →
    Except XMLError (Option (RSSState × Option FeedObject))
  | RSSState.root, _ => Except.ok none
  | RSSState.channel b, tag =>
      ofGroupStep (Util.closetagHandler (channelCore b)
        (fun _ => (RSSState.root, none)) tag)
  | RSSState.simpleText tagName kind text returnState, _ =>
      Except.ok (some (returnState, some (FeedObject.mk tagName (mkValue kind text))))

end RSS

/-- Concatenation of a list of text fragments, in order — the text a capture
state accumulates when the fragments are delivered one call at a time. -/
def concatAll (l : List String) : String :=
  l.foldl (fun a b => a ++ b) ""

/-- A begun `AbstractGroupTagParserState` owning the tag `channel` with the
default `Ignore` behavior — the receiver for the C1 evaluation. -/
def c1Core : Util.GroupCore :=
  { tagName := "channel", beginParse := true,
    unexpectedTagBehavior := Util.UnexpectedTagBehavior.Ignore }

/-- A one-entry state-transition table mapping the child tag `title` to a
factory that records which child was built and who its parent is. -/
def c1Table : List (String × (Util.GroupCore → XTag → String × Option String)) :=
  [("title", fun core tag => ("child(" ++ tag.name ++ ")of(" ++ core.tagName ++ ")", none))]

/-- A transition function standing in for `transitionUnexpectedTag`. -/
def c1Unexpected : XTag → String × Option String :=
  fun _ => ("unexpectedChild", none)

/-- Trivial state handlers over a one-point state type, used to instantiate the
controller for the C5 evaluation. -/
def c5Handlers : XDP.StateHandlers Unit String :=
  { onOpen := fun _ _ => Except.ok none
    onText := fun _ _ => Except.ok none
    onClose := fun _ _ => Except.ok none }

/-! Helper lemmas on string concatenation, shared by the chunk-boundary and
round-trip claims. -/

theorem strAppendAssoc (a b c : String) : a ++ b ++ c = a ++ (b ++ c) := by
  apply String.ext
  simp [String.data_append]

theorem strAppendEmpty (a : String) : a ++ "" = a := by
  apply String.ext
  simp [String.data_append]

theorem strEmptyAppend (a : String) : "" ++ a = a := by
  apply String.ext
  simp [String.data_append]

theorem concatAll_foldl (l : List String) (x : String) :
    l.foldl (fun a b => a ++ b) x = x ++ concatAll l := by
  induction l generalizing x with
  | nil =>
      rw [show concatAll [] = "" from rfl, strAppendEmpty]
      rfl
  | cons a l ih =>
      have hcons : concatAll (a :: l) = a ++ concatAll l := by
        show List.foldl (fun u v => u ++ v) ("" ++ a) l = a ++ concatAll l
        rw [ih, strEmptyAppend]
      rw [List.foldl_cons, ih, hcons, strAppendAssoc]

theorem concatAll_cons (a : String) (l : List String) :
    concatAll (a :: l) = a ++ concatAll l := by
  show List.foldl (fun u v => u ++ v) ("" ++ a) l = a ++ concatAll l
  rw [concatAll_foldl, strEmptyAppend]

theorem foldlOnText {σ ε : Type} (l : List String) (st : XDP.TextParserState σ ε) :
    List.foldl XDP.TextParserState.onText st l
      = { st with text := st.text ++ concatAll l } := by
  induction l generalizing st with
  | nil =>
      rw [List.foldl_nil, show concatAll [] = "" from rfl, strAppendEmpty]
  | cons a l ih =>
      rw [List.foldl_cons, ih, concatAll_cons, ← strAppendAssoc]
      rfl

theorem foldlTextHandler {σ : Type} (l : List String) (st : Util.TextState σ) :
    List.foldl Util.TextState.textHandler st l
      = { st with text := st.text ++ concatAll l } := by
  induction l generalizing st with
  | nil =>
      rw [List.foldl_nil, show concatAll [] = "" from rfl, strAppendEmpty]
  | cons a l ih =>
      rw [List.foldl_cons, ih, concatAll_cons, ← strAppendAssoc]
      rfl

/-- C1: in a begun group state, `opentagHandler` does not dispatch an expected
child tag at all — it returns no transition, never consulting the transition
table or the unexpected-tag policy — whereas the (never invoked)
`handleOpenTagAfterBegin` at the same input does build the child transition
from the table; correspondingly, the RSS channel state after begin silently
ignores its expected child tag `title`. -/
theorem C1_open_after_begin_returns_nothing :
    Util.opentagHandler c1Core c1Unexpected ⟨"title", []⟩
        = Except.ok Util.GroupStep.noTransition
    ∧ Util.simpleHandleOpenTagAfterBegin c1Core c1Table c1Unexpected ⟨"title", []⟩
        = Except.ok (Util.GroupStep.toOther ("child(title)of(channel)") none)
    ∧ RSS.RSSState.opentagHandler (RSS.RSSState.channel true) ⟨"title", []⟩
        = Except.ok none :=
  ⟨rfl, rfl, rfl⟩

/-- C2: `ReturnTextParserState.onCloseTag` feeds the collector exactly once
with the raw accumulated text and returns no `StateTransition` — control is
not handed back to the parent state; evaluated both generally and at the
failing input (accumulated text `60`, parent present, close tag `ttl`). -/
theorem C2_return_text_close_no_transition :
    (∀ (σ ε : Type) (st : XDP.ReturnTextParserState σ) (tag : XTag),
      XDP.ReturnTextParserState.onCloseTag (ε := ε) st tag
        = ([st.text], (none : Option (σ × Option ε))))
    ∧ XDP.ReturnTextParserState.onCloseTag (ε := String)
        ({ text := "60", attributes := [], parent := some ("parentState") }
          : XDP.ReturnTextParserState String) ⟨"ttl", []⟩
        = (["60"], none) :=
  ⟨fun _ _ _ _ => rfl, rfl⟩

/-- C3 counterexample: in the RSS channel grammar, closing a `ttl` element
whose accumulated text is `abc` emits a channel object in which the `ttl`
field is PRESENT with value `NaN` (`parseInt` of a non-numeric string) — not
absent as the claim states. -/
theorem C3_ttl_nan_counterexample :
    RSS.RSSState.closetagHandler
        (RSS.RSSState.simpleText ("ttl") RSS.VKind.vnum ("abc") (RSS.RSSState.channel true))
        ⟨"ttl", []⟩
      = Except.ok (some (RSS.RSSState.channel true,
          some { key := "ttl", value := RSS.ChannelValue.num RSS.JSNum.nan })) :=
  rfl

/-- C3 (amended): opening `ttl` in a begun channel state builds the
`parseInt`-transforming capture state; text `60` accumulates and its close tag
emits the `ttl` field with integer 60; text `abc` yields the `ttl` field
present with `NaN` — in both cases the close-tag transition returns to the
channel state with no error, so parsing continues with subsequent siblings. -/
theorem C3_ttl_parse_amended (b : Bool) :
    RSS.transitionExpectedTag b ⟨"ttl", []⟩
        = (RSS.RSSState.simpleText ("ttl") RSS.VKind.vnum ("") (RSS.RSSState.channel b), none)
    ∧ RSS.RSSState.textHandler
        (RSS.RSSState.simpleText ("ttl") RSS.VKind.vnum ("") (RSS.RSSState.channel b)) ("60")
        = some (RSS.RSSState.simpleText ("ttl") RSS.VKind.vnum ("60") (RSS.RSSState.channel b))
    ∧ RSS.RSSState.closetagHandler
        (RSS.RSSState.simpleText ("ttl") RSS.VKind.vnum ("60") (RSS.RSSState.channel b))
        ⟨"ttl", []⟩
        = Except.ok (some (RSS.RSSState.channel b,
            some { key := "ttl", value := RSS.ChannelValue.num (RSS.JSNum.int 60) }))
    ∧ RSS.RSSState.closetagHandler
        (RSS.RSSState.simpleText ("ttl") RSS.VKind.vnum ("abc") (RSS.RSSState.channel b))
        ⟨"ttl", []⟩
        = Except.ok (some (RSS.RSSState.channel b,
            some { key := "ttl", value := RSS.ChannelValue.num RSS.JSNum.nan })) :=
  ⟨rfl, rfl, rfl, rfl⟩

/-- C4 counterexample: `XMLDataParser.ts`-framework text-capture states do not
fail on a nested open tag — `TextParserState` inherits the empty
`BaseParserState.onOpenTag`, so at a concrete capturing state and tag the
handler returns no error and no transition. -/
theorem C4_textparser_opentag_ignored_counterexample :
    XDP.TextParserState.onOpenTag
        ({ text := "partial text", attributes := [],
           emitObjectTextConstructor := fun t _ => t,
           parent := some ("parentState") } : XDP.TextParserState String String)
        ⟨"nested", []⟩
      = Except.ok none :=
  rfl

/-- C4 (amended): the `Utilities.ts` text-capture state
(`AbstractTextTagParserState`) throws `UnexpectedXMLTagError` naming its
owning tag on every open-tag event, while the `XMLDataParser.ts`
`TextParserState` inherits the base no-op open-tag handler and ignores every
nested open tag. -/
theorem C4_opentag_capture_amended :
    (∀ (σ : Type) (st : Util.TextState σ) (tag : XTag),
      Util.TextState.opentagHandler st tag = XMLError.unexpectedTag tag.name (some st.tagName))
    ∧ (∀ (σ ε : Type) (st : XDP.TextParserState σ ε) (tag : XTag),
      XDP.TextParserState.onOpenTag st tag = Except.ok none) :=
  ⟨fun _ _ _ => rfl, fun _ _ _ _ => rfl⟩

/-- C5 counterexample: a fresh pre-init controller delivered end-of-input
surfaces no error at all (the error-sink output is empty, not a single
missing-required-tag error): no handler is registered for the saxes `end`
event. -/
theorem C5_no_end_of_input_error_counterexample :
    XDP.Controller.step c5Handlers (XDP.SimpleXMLParserController.isFirstTag ("rss"))
        (fun _ => ()) (XDP.mkController Unit) XDP.SaxEvent.endOfInput
      = Except.ok (XDP.mkController Unit, [], []) :=
  rfl

/-- C5 (amended): end-of-input is a no-op for `XMLParserController` in every
phase — the controller is unchanged (in particular it stays in pre-init),
nothing is emitted, and no error is surfaced. -/
theorem C5_end_of_input_amended (σ ε : Type) (m : XDP.StateHandlers σ ε)
    (isF : XTag → Bool) (mkSt : XTag → σ) (c : XDP.Controller σ) :
    XDP.Controller.step m isF mkSt c XDP.SaxEvent.endOfInput = Except.ok (c, [], []) :=
  rfl

/-- C6: text accumulation is string concatenation in both frameworks, so
feeding a list of fragments and then the close tag produces the same result as
feeding their concatenation in one call — the emitted value is independent of
chunk boundaries. -/
theorem C6_chunk_boundary_independence :
    (∀ (σ ε : Type) (st : XDP.TextParserState σ ε) (l : List String) (tag : XTag),
      XDP.TextParserState.onCloseTag (List.foldl XDP.TextParserState.onText st l) tag
        = XDP.TextParserState.onCloseTag (XDP.TextParserState.onText st (concatAll l)) tag)
    ∧ (∀ (σ ε : Type) (st : Util.TextState σ) (ctor : String → ε) (l : List String) (tag : XTag),
      Util.TextState.closetagHandler (List.foldl Util.TextState.textHandler st l) ctor tag
        = Util.TextState.closetagHandler (Util.TextState.textHandler st (concatAll l)) ctor tag) := by
  constructor
  · intro σ ε st l tag
    rw [foldlOnText]
    rfl
  · intro σ ε st ctor l tag
    rw [foldlTextHandler]
    rfl

/-- C7: a `TextParserState` created from open tag `T` with transform `f` and
parent `p`, after accumulating text `v`, answers its close tag with a
transition to `p` emitting exactly `f v (attribute map of T)` — one emitted
contribution per open/text/close sequence. -/
theorem C7_text_capture_roundtrip (σ ε : Type) (T : XTag)
    (f : String → List (String × String) → ε) (p : σ) (v : String) (tagC : XTag) :
    XDP.TextParserState.onCloseTag
        (XDP.TextParserState.onText (XDP.TextParserState.fromOpenTag T f p) v) tagC
      = Except.ok (some (p, some (f v T.attributes))) := by
  show Except.ok (some (p, some (f ("" ++ v) T.attributes))) = _
  rw [strEmptyAppend]

/-- C8: the group-state close handler throws `InvalidXMLCloseTagError`
whenever the close tag name differs from the owning name — for every
configured unexpected-tag policy — and otherwise returns the finish
transition; instantiated, the RSS channel state finalizes to a fresh root
state on `channel` and fails on any other close tag. -/
theorem C8_group_close_mismatch_fatal :
    (∀ (σ ε : Type) (g : Util.GroupCore) (fin : Unit → σ × Option ε) (tag : XTag),
      Util.closetagHandler g fin tag =
        if tag.name = g.tagName
        then Except.ok (Util.GroupStep.toOther (fin ()).1 (fin ()).2)
        else Except.error (XMLError.invalidCloseTag tag.name))
    ∧ (∀ (b : Bool) (tag : XTag),
      RSS.RSSState.closetagHandler (RSS.RSSState.channel b) tag =
        if tag.name = "channel"
        then Except.ok (some (RSS.RSSState.root, none))
        else Except.error (XMLError.invalidCloseTag tag.name)) := by
  constructor
  · intro σ ε g fin tag
    by_cases h : tag.name = g.tagName <;> simp [Util.closetagHandler, h]
  · intro b tag
    by_cases h : tag.name = "channel" <;>
      simp [RSS.RSSState.closetagHandler, Util.closetagHandler, RSS.channelCore,
        RSS.ofGroupStep, h]

/-- C9: in pre-init the controller drops text and close-tag events; the first
open tag satisfying the root predicate leaves pre-init and installs the state
built by the injected constructor from that tag, while other open tags leave
the controller unchanged; once active, open, text, and close events are all
forwarded to the current state through `handleStateTransition`; and
`SimpleXMLParserController.isFirstTag` is name equality with the configured
first tag. -/
theorem C9_controller_pre_init_dispatch (σ ε : Type) (m : XDP.StateHandlers σ ε)
    (isF : XTag → Bool) (mkSt : XTag → σ) (st0 : Option σ) (st : σ)
    (t : XTag) (s : String) (ft : String) :
    (XDP.Controller.step m isF mkSt ⟨true, st0⟩ (XDP.SaxEvent.text s)
        = Except.ok (⟨true, st0⟩, [], []))
    ∧ (XDP.Controller.step m isF mkSt ⟨true, st0⟩ (XDP.SaxEvent.closetag t)
        = Except.ok (⟨true, st0⟩, [], []))
    ∧ (XDP.Controller.step m isF mkSt ⟨true, st0⟩ (XDP.SaxEvent.opentag t)
        = if isF t
          then Except.ok (⟨false, some (mkSt t)⟩, [], [])
          else Except.ok (⟨true, st0⟩, [], []))
    ∧ (XDP.Controller.step m isF mkSt ⟨false, some st⟩ (XDP.SaxEvent.opentag t)
        = XDP.applyTransition ⟨false, some st⟩ (m.onOpen st t))
    ∧ (XDP.Controller.step m isF mkSt ⟨false, some st⟩ (XDP.SaxEvent.text s)
        = XDP.applyTransition ⟨false, some st⟩ (m.onText st s))
    ∧ (XDP.Controller.step m isF mkSt ⟨false, some st⟩ (XDP.SaxEvent.closetag t)
        = XDP.applyTransition ⟨false, some st⟩ (m.onClose st t))
    ∧ XDP.SimpleXMLParserController.isFirstTag ft t = (t.name == ft) :=
  ⟨rfl, rfl, rfl, rfl, rfl, rfl, rfl⟩

/-- C10: when the RSS channel state receives its matching close tag, the
transition it returns targets a freshly constructed root-detection state, and
that root state answers a subsequent `rss` open tag by starting a new channel
parse — the grammar resets to root detection after the top-level container
closes. -/
theorem C10_channel_close_resets_to_root (b : Bool) (attrs attrs2 : List (String × String)) :
    RSS.RSSState.closetagHandler (RSS.RSSState.channel b) ⟨"channel", attrs⟩
        = Except.ok (some (RSS.RSSState.root, none))
    ∧ RSS.RSSState.opentagHandler RSS.RSSState.root ⟨"rss", attrs2⟩
        = Except.ok (some (RSS.RSSState.channel false, none)) :=
  ⟨rfl, rfl⟩

end Diatomic
